import Mathlib

/-!
Verification development for the cleanup-status-checker orchestrator
(src/cleanup-status-checker/cleanup_status_checker.py).

The module is embedded shallowly: knowledge-base names and ids are lists of
characters (Python str), DynamoDB is an association list from id to item,
the relational age index and the secret provider are explicit environment
fields whose calls return Except values (a thrown exception is the error
case, absorbed exactly where the source has a try/except), and time is an
integer measured in days (datetime.now() is the field now, timedelta(days=d)
is the integer d).

The source file contains several non-semantic syntax slips (a typo in an
import, a hyphen for an equals sign in a default argument, an unclosed try
block); the embedding models the written dataflow of each function.
Semantic behaviour is kept faithfully, including behaviour that diverges
from the specification: the continuation handler re-runs discovery, the
batch dispatcher ignores its start-index argument, and delete_kb catches
the client error that its retry wrapper expects to observe.
-/

namespace CleanupStatusChecker

/-- Python strings are modelled as lists of characters. -/
abbrev Name := List Char

/-- The hard-coded knowledge-base name marker checked by extract_re_id
(the literal "kb_" at line 296 of the source; KB_PREFIX defaults to the
same string). -/
def kbPre : Name := ['k', 'b', '_']

/-- Module configuration defaults (lines 25-29 of the source). -/
def KBS_PER_BATCH : Nat := 10

/-- Default for the MAX_RETRIES environment option (line 26). -/
def MAX_RETRIES : Nat := 3

/-- Default for the RETRY_DELAY environment option (line 27). -/
def RETRY_DELAY : Nat := 5

/-- Default for the DEFAULT_DAYS_THRESHOLD environment option (line 28). -/
def DEFAULT_DAYS_THRESHOLD : Int := 30

/-- Default for the DELAY_BETWEEN_KBS environment option (line 29). -/
def DELAY_BETWEEN_KBS : Nat := 5

/-- Error raised by an external collaborator (ClientError / psycopg2 error).
One constructor suffices: the source never inspects the error beyond logging. -/
inductive DbErr where
  | err
deriving DecidableEq

/-- Parsed secret value from AWS Secrets Manager (get_secrets, lines 211-221). -/
structure Secrets where
  host : String
  port : String
  user : String
  password : String
deriving DecidableEq

/-- One DynamoDB item of the status table: CleanupStatus and CleanupComment
attributes, each possibly absent. -/
structure Item where
  cleanupStatus : Option String := none
  cleanupComment : Option String := none
deriving DecidableEq

/-- The DynamoDB status table, keyed by ReverseEnggID. -/
abbrev StatusStore := List (Name × Item)

/-- dynamodb get_item on the status table. -/
def getItem : StatusStore → Name → Option Item
  | [], _ => none
  | (k, v) :: rest, id => if k = id then some v else getItem rest id

/-- dynamodb update_item upsert on the status table: replaces the item for
the key, or creates it. -/
def setItem : StatusStore → Name → Item → StatusStore
  | [], id, it => [(id, it)]
  | (k, v) :: rest, id, it =>
      if k = id then (id, it) :: rest else (k, v) :: setItem rest id it

/-- get_cleanup_status (lines 92-109): returns the CleanupStatus attribute of
the item, None when the item is absent. (When the item exists without the
attribute the source would raise on None.get; the model returns none.) -/
def get_cleanup_status (store : StatusStore) (id : Name) : Option String :=
  match getItem store id with
  | some item => item.cleanupStatus
  | none => none

/-- The stored CleanupComment attribute for an id, for stating write-once. -/
def get_cleanup_comment (store : StatusStore) (id : Name) : Option String :=
  match getItem store id with
  | some item => item.cleanupComment
  | none => none

/-- update_cleanup_status (lines 166-183, the later of the two definitions,
which shadows the two-argument one). Its UpdateExpression is
"set CleanupStatus = :status, CleanupComment = :comment if CleanupComment is null",
modelled by its conditional-assignment reading: the status attribute is set
unconditionally, the comment attribute only when no comment is stored yet. -/
def update_cleanup_status (store : StatusStore) (id : Name) (status : String)
    (comment : Option String) : StatusStore :=
  let old := (getItem store id).getD {}
  setItem store id
    { cleanupStatus := some status
      cleanupComment :=
        match old.cleanupComment with
        | some c => some c
        | none => comment }

/-- Environment of one invocation: the contents and failure behaviour of the
external collaborators the orchestrator talks to. -/
structure Env where
  /-- get_secret_value result: none models a ClientError from Secrets Manager. -/
  secrets : Option Secrets
  /-- Outcome of executing DROP TABLE IF EXISTS for a given id
  (delete_vector_table, lines 223-253). -/
  dropTable : Name → Except DbErr Unit
  /-- Outcome of SELECT kb_name FROM the registry table
  (find_outdated_kbs, line 327-328); the error case covers connection
  failures as well, since the whole body sits in one try. -/
  tableRows : Except DbErr (List Name)
  /-- Outcome of SELECT created_at for a given name
  (is_kb_older_than_threshold, lines 278-284): error = raised exception,
  ok none = empty result set, ok (some t) = fetched creation time. -/
  createdAt : Name → Except DbErr (Option Int)
  /-- The DynamoDB status table contents. -/
  store : StatusStore
  /-- datetime.now(), in days. -/
  now : Int

/-- get_secrets (lines 211-221): returns the parsed secret or None on error. -/
def get_secrets (env : Env) : Option Secrets :=
  env.secrets

/-- delete_vector_table (lines 223-253): False when secrets cannot be
fetched; otherwise True iff the DROP TABLE statement ran without raising
(any exception is caught and turned into False). -/
def delete_vector_table (env : Env) (re_id : Name) : Bool :=
  match get_secrets env with
  | none => false
  | some _ =>
    match env.dropTable re_id with
    | Except.ok _ => true
    | Except.error _ => false

/-- is_kb_older_than_threshold (lines 255-289): fetch secrets (False on
failure), fetch created_at (False on a raised exception or an empty result),
then compare created_at < now - timedelta(days=days), line 285-286. -/
def is_kb_older_than_threshold (env : Env) (re_id : Name) (days : Int) : Bool :=
  match get_secrets env with
  | none => false
  | some _ =>
    match env.createdAt re_id with
    | Except.error _ => false
    | Except.ok none => false
    | Except.ok (some created_at) => decide (created_at < env.now - days)

/-- find_outdated_kbs (lines 304-340): secrets failure or a raised query
exception or an empty result set yields []; otherwise the fetched names are
filtered through is_kb_older_than_threshold. -/
def find_outdated_kbs (env : Env) (days_threshold : Int) : List Name :=
  match get_secrets env with
  | none => []
  | some _ =>
    match env.tableRows with
    | Except.error _ => []
    | Except.ok rows =>
      if rows.isEmpty then []
      else rows.filter (fun kb_name => is_kb_older_than_threshold env kb_name days_threshold)

/-- list_knowledge_bases (lines 53-71): the paginated listing loop, with the
whole interaction under one try — a ClientError at any point returns [],
otherwise all pages are concatenated. -/
def list_knowledge_bases (pages : Except DbErr (List (List Name))) : List Name :=
  match pages with
  | Except.error _ => []
  | Except.ok ps => ps.flatten

/-- extract_re_id (lines 291-302): strip the "kb_" marker when present
(kb_name[3:]), otherwise return the name unchanged. The except branch that
returns None is unreachable for a string argument, since str.startswith and
slicing are total, so the model is a total function. -/
def extract_re_id (kb_name : Name) : Name :=
  if kbPre.isPrefixOf kb_name then kb_name.drop 3 else kb_name

/-- Python slice l[i:j] on lists. -/
def pySlice (l : List α) (i j : Nat) : List α :=
  (l.drop i).take (j - i)

/-- Result dictionary of a batch: the "success" and "failed" lists. -/
structure BatchResult where
  success : List Name
  failed : List Name
deriving DecidableEq

/-- The per-name deletion loop shared verbatim by _handle_async_process
(lines 400-406) and _handle_bulk_cleanup (lines 423-428): for each name,
re_id = extract_re_id(kb_name), then delete_vector_table(re_id) sorts the
name into success or failed. Besides the batch result of the source, the
model returns the list of re_ids on which delete_vector_table was invoked,
making deletion attempts observable. -/
def deletionLoop (deleteOK : Name → Bool) : List Name → BatchResult × List Name
  | [] => (⟨[], []⟩, [])
  | kb_name :: rest =>
    let re_id := extract_re_id kb_name
    let r := deletionLoop deleteOK rest
    if deleteOK re_id then
      (⟨kb_name :: r.1.success, r.1.failed⟩, re_id :: r.2)
    else
      (⟨r.1.success, kb_name :: r.1.failed⟩, re_id :: r.2)

/-- _handle_bulk_cleanup (lines 421-430): run the deletion loop over the
whole kb_batch and return the batch result (paired with the attempt list,
see deletionLoop). -/
def handle_bulk_cleanup (env : Env) (kb_batch : List Name) : BatchResult × List Name :=
  deletionLoop (delete_vector_table env) kb_batch

/-- Continuation payload built by process_kb_batch_asynchronously
(lines 362-367). -/
structure Payload where
  kb_batch : List Name
  start_index : Nat
  days_threshold : Int
  job_id : Name
deriving DecidableEq

/-- process_kb_batch_asynchronously (lines 355-372): one asynchronous
self-invocation per window of the WHOLE list — the loop is
for i in range(0, len(kb_batch), batch_size), so the start_index argument
is ignored, exactly as in the source. range(0, n, step) with a positive
step is the list of i < n divisible by step. -/
def process_kb_batch_asynchronously (batch_size : Nat) (kb_batch : List Name)
    (start_index : Nat) (days_threshold : Int) (job_id : Name) : List Payload :=
  ((List.range kb_batch.length).filter (fun i => i % batch_size = 0)).map
    (fun i =>
      { kb_batch := pySlice kb_batch i (i + batch_size)
        start_index := i
        days_threshold := days_threshold
        job_id := job_id })

/-- Continuation event consumed by _handle_async_process. -/
structure AsyncEvent where
  start_index : Nat
  days_threshold : Int
  job_id : Name
deriving DecidableEq

/-- Everything observable about one _handle_async_process invocation. -/
structure AsyncOutcome where
  batch_result : BatchResult
  /-- re_ids passed to delete_vector_table during the window loop. -/
  attempts : List Name
  /-- payloads handed to the lambda dispatcher. -/
  dispatched : List Payload
  /-- the candidate list returned by the find_outdated_kbs call this
  invocation itself makes (line 392). -/
  discovered : List Name

/-- The window _handle_async_process iterates over: indices
start_index .. min(start_index + batch_size, len) of the freshly discovered
candidate list (lines 392, 398, 400-401). -/
def windowOf (env : Env) (batch_size : Nat) (ev : AsyncEvent) : List Name :=
  pySlice (find_outdated_kbs env ev.days_threshold) ev.start_index
    (min (ev.start_index + batch_size) (find_outdated_kbs env ev.days_threshold).length)

/-- _handle_async_process (lines 391-411): re-discover the candidate list by
calling find_outdated_kbs, run the deletion loop over the window at
start_index, and if the end index is short of the list length hand the whole
list to process_kb_batch_asynchronously. (The source reads days_threshold
from the event; the model takes the event record directly. The source
fetches batch_size from an attribute that is never initialised; the model
takes the configured value as a parameter.) -/
def handle_async_process (env : Env) (batch_size : Nat) (ev : AsyncEvent) : AsyncOutcome :=
  let kbs_to_process := find_outdated_kbs env ev.days_threshold
  let endIdx := min (ev.start_index + batch_size) kbs_to_process.length
  let processed := deletionLoop (delete_vector_table env) (windowOf env batch_size ev)
  { batch_result := processed.1
    attempts := processed.2
    dispatched :=
      if endIdx < kbs_to_process.length then
        process_kb_batch_asynchronously batch_size kbs_to_process endIdx
          ev.days_threshold ev.job_id
      else []
    discovered := kbs_to_process }

/-- Raised outcome of one underlying bedrock delete_knowledge_base call:
the argument says whether this call throws a ClientError. -/
def bedrock_delete_knowledge_base (fails : Bool) : Except DbErr Unit :=
  if fails then Except.error DbErr.err else Except.ok ()

/-- delete_kb (lines 141-150): the bedrock call is wrapped in
try/except ClientError with only a log statement, so the error never
escapes — delete_kb returns normally whatever the underlying call did. -/
def delete_kb (fails : Bool) : Except DbErr Unit :=
  match bedrock_delete_knowledge_base fails with
  | Except.ok u => Except.ok u
  | Except.error _ => Except.ok ()

/-- Observable outcome of check_and_retry_kb_deletion: the returned boolean,
how many delete_kb attempts were made, how many retry delays were slept. -/
structure RetryOutcome where
  result : Bool
  attempts : Nat
  sleeps : Nat
deriving DecidableEq

/-- The retry loop body of check_and_retry_kb_deletion (lines 190-197):
for each remaining iteration, call delete_kb and return True unless it
raises ClientError, in which case sleep and continue; after the loop return
False. failsAt says whether the underlying bedrock call of a given attempt
number throws. -/
def retry_go (failsAt : Nat → Bool) : Nat → Nat → Nat → RetryOutcome
  | 0, att, sl => ⟨false, att, sl⟩
  | Nat.succ n, att, sl =>
    match delete_kb (failsAt att) with
    | Except.ok _ => ⟨true, att + 1, sl⟩
    | Except.error _ => retry_go failsAt n (att + 1) (sl + 1)

/-- check_and_retry_kb_deletion (lines 185-200). -/
def check_and_retry_kb_deletion (failsAt : Nat → Bool) (max_retries : Nat) : RetryOutcome :=
  retry_go failsAt max_retries 0 0

/-- HTTP-style response dictionary; the body is represented by its message
field (every response body in the source is a single-message JSON object,
possibly with extra fields not needed by the claims). -/
structure Response where
  statusCode : Nat
  message : String
deriving DecidableEq

/-- _no_kbs_to_cleanup_response (lines 457-463). -/
def no_kbs_to_cleanup_response : Response :=
  { statusCode := 200, message := "No knowledge bases to cleanup" }

/-- Trigger event for lambda_handler; absent keys are none/defaults. -/
structure Event where
  kb_batch : Option (List Name) := none
  start_index : Nat := 0
  days_threshold : Int := DEFAULT_DAYS_THRESHOLD
  job_id : Name := []

/-- Everything observable about one lambda_handler invocation. -/
structure HandlerOutcome where
  response : Option Response
  /-- re_ids passed to delete_vector_table. -/
  deletions : List Name
  /-- per-deletion results. -/
  results : List Bool
deriving DecidableEq

/-- lambda_handler (lines 373-389) as written: the body handles only events
carrying a kb_batch key, deleting the vector table of each name in the
batch; there is no branch for a new-job trigger, no call to any response
helper, and no return statement, so every invocation yields no response.
(In the source the surrounding try block has no except clause at all.) -/
def lambda_handler (env : Env) (event : Event) : HandlerOutcome :=
  match event.kb_batch with
  | some kb_batch =>
    { response := none
      deletions := kb_batch.map (fun kb_name => extract_re_id kb_name)
      results := kb_batch.map (fun kb_name => delete_vector_table env (extract_re_id kb_name)) }
  | none =>
    { response := none, deletions := [], results := [] }

/-- A concrete secret value for concrete environments. -/
def sec0 : Secrets := ⟨"h", "5432", "u", "pw"⟩

/-- Registry names used by the concrete environments. -/
def kbA : Name := ['k', 'b', '_', 'a']

/-- Second registry name. -/
def kbB : Name := ['k', 'b', '_', 'b']

/-- Third registry name. -/
def kbC : Name := ['k', 'b', '_', 'c']

/-- Fourth registry name. -/
def kbX : Name := ['k', 'b', '_', 'x']

/-- Environment at job start: registry rows kbA, kbB, both long outdated. -/
def envStart : Env :=
  { secrets := some sec0
    dropTable := fun _ => Except.ok ()
    tableRows := Except.ok [kbA, kbB]
    createdAt := fun _ => Except.ok (some 0)
    store := []
    now := 100 }

/-- The same system at continuation time, after its contents changed:
registry rows now kbA, kbC. -/
def envCont : Env :=
  { envStart with tableRows := Except.ok [kbA, kbC] }

/-- Environment whose status store already records Succeeded for id x,
while the registry still lists kb_x as an outdated candidate. -/
def envSucceeded : Env :=
  { secrets := some sec0
    dropTable := fun _ => Except.ok ()
    tableRows := Except.ok [kbX]
    createdAt := fun _ => Except.ok (some 0)
    store := [(['x'], { cleanupStatus := some "Succeeded", cleanupComment := none })]
    now := 100 }

/-- Environment with one row whose creation time sits exactly on the
threshold boundary: createdAt = now - days for days = 30. -/
def envBoundary : Env :=
  { secrets := some sec0
    dropTable := fun _ => Except.ok ()
    tableRows := Except.ok [['x']]
    createdAt := fun _ => Except.ok (some 70)
    store := []
    now := 100 }

/-- envBoundary with the row one day older, strictly past the threshold. -/
def envIncluded : Env :=
  { envBoundary with createdAt := fun _ => Except.ok (some 69) }

/-- Environment where credential retrieval fails. -/
def envNoSecrets : Env :=
  { envBoundary with secrets := none }

/-- Environment with an empty registry table: discovery finds nothing. -/
def envZero : Env :=
  { envBoundary with tableRows := Except.ok [] }

/-- Writing an item for a key makes lookup of that key return it. -/
theorem getItem_setItem_self (store : StatusStore) (id : Name) (it : Item) :
    getItem (setItem store id it) id = some it := by
  induction store with
  | nil => simp [setItem, getItem]
  | cons hd tl ih =>
    obtain ⟨k, v⟩ := hd
    by_cases h : k = id
    · simp [setItem, h, getItem]
    · simp [setItem, h, getItem, ih]

/-- Effect of update_cleanup_status on the stored comment: an existing
comment survives unchanged, an absent one is replaced by the argument. -/
theorem comment_after_update (store : StatusStore) (id : Name) (s : String)
    (c : Option String) :
    get_cleanup_comment (update_cleanup_status store id s c) id =
      match get_cleanup_comment store id with
      | some cm => some cm
      | none => c := by
  cases h : getItem store id with
  | none =>
      simp [get_cleanup_comment, update_cleanup_status, h, getItem_setItem_self,
        Option.getD]
  | some it =>
      cases hc : it.cleanupComment <;>
        simp [get_cleanup_comment, update_cleanup_status, h, hc, getItem_setItem_self,
          Option.getD]

/-- The attempts returned by the deletion loop are the re_ids of all window
names, in order. -/
theorem deletionLoop_attempts (p : Name → Bool) (l : List Name) :
    (deletionLoop p l).2 = l.map extract_re_id := by
  induction l with
  | nil => rfl
  | cons kb tl ih => cases h : p (extract_re_id kb) <;> simp [deletionLoop, h, ih]

/-- The success list of the deletion loop is the sublist of names whose
deletion succeeded. -/
theorem deletionLoop_success (p : Name → Bool) (l : List Name) :
    (deletionLoop p l).1.success = l.filter (fun kb => p (extract_re_id kb)) := by
  induction l with
  | nil => rfl
  | cons kb tl ih => cases h : p (extract_re_id kb) <;> simp [deletionLoop, h, ih]

/-- The failed list of the deletion loop is the sublist of names whose
deletion failed. -/
theorem deletionLoop_failed (p : Name → Bool) (l : List Name) :
    (deletionLoop p l).1.failed = l.filter (fun kb => !(p (extract_re_id kb))) := by
  induction l with
  | nil => rfl
  | cons kb tl ih => cases h : p (extract_re_id kb) <;> simp [deletionLoop, h, ih]

/-- A boolean predicate splits a list into two sublists whose lengths sum to
the original length. -/
theorem filter_length_partition (p : α → Bool) (l : List α) :
    (l.filter p).length + (l.filter (fun a => !(p a))).length = l.length := by
  induction l with
  | nil => rfl
  | cons a tl ih => cases h : p a <;> simp [List.filter_cons, h] <;> omega

/-- The dispatch component of _handle_async_process, spelt out. -/
theorem handler_dispatched_eq (env : Env) (bs : Nat) (ev : AsyncEvent) :
    (handle_async_process env bs ev).dispatched
      = (if min (ev.start_index + bs) (find_outdated_kbs env ev.days_threshold).length
            < (find_outdated_kbs env ev.days_threshold).length
         then process_kb_batch_asynchronously bs (find_outdated_kbs env ev.days_threshold)
                (min (ev.start_index + bs) (find_outdated_kbs env ev.days_threshold).length)
                ev.days_threshold ev.job_id
         else []) := rfl

/-- Claim C1, counterexample: with the Status Store already recording
Succeeded for id x and kb_x still among the discovered candidates, the batch
handler nevertheless passes x to delete_vector_table — no skip happens,
so re-delivering the payload deletes a Succeeded resource again. -/
theorem C1_executor_attempts_succeeded_resource :
    get_cleanup_status envSucceeded.store ['x'] = some "Succeeded" ∧
    (handle_async_process envSucceeded KBS_PER_BATCH ⟨0, 30, ['j']⟩).attempts = [['x']] :=
  ⟨rfl, rfl⟩

/-- Claim C1, amended: the batch handler never consults the Status Store —
its attempt list is the same for every store contents, and deletion is
attempted for every id of the window regardless of any Succeeded record. -/
theorem C1_executor_ignores_status_store :
    ∀ (env : Env) (bs : Nat) (ev : AsyncEvent) (store2 : StatusStore),
      (handle_async_process { env with store := store2 } bs ev).attempts
        = (handle_async_process env bs ev).attempts ∧
      (handle_async_process env bs ev).attempts = (windowOf env bs ev).map extract_re_id := by
  intro env bs ev store2
  exact ⟨rfl, deletionLoop_attempts _ _⟩

/-- Claim C2, counterexample: the candidate list is not fixed at job start.
At start the age index yields names kbA, kbB; by continuation time it yields
kbA, kbC, and the continuation at cursor 1 processes kbC — an element of the
freshly re-discovered sequence, not kbB from the sequence discovered at
start. -/
theorem C2_continuation_reruns_discovery :
    find_outdated_kbs envStart 30 = [kbA, kbB] ∧
    find_outdated_kbs envCont 30 = [kbA, kbC] ∧
    (handle_async_process envCont 1 ⟨1, 30, ['j']⟩).discovered = [kbA, kbC] ∧
    (handle_async_process envCont 1 ⟨1, 30, ['j']⟩).batch_result.success = [kbC] ∧
    kbC ≠ kbB :=
  ⟨rfl, rfl, rfl, rfl, by decide⟩

/-- Claim C2, amended: every continuation re-runs discovery — the handler
itself calls find_outdated_kbs and its cursor indexes into that fresh
sequence, whose window the batch result partitions. -/
theorem C2_window_from_fresh_discovery :
    ∀ (env : Env) (bs : Nat) (ev : AsyncEvent),
      (handle_async_process env bs ev).discovered = find_outdated_kbs env ev.days_threshold ∧
      (handle_async_process env bs ev).batch_result
        = (deletionLoop (delete_vector_table env) (windowOf env bs ev)).1 ∧
      (handle_async_process env bs ev).batch_result.success.length
          + (handle_async_process env bs ev).batch_result.failed.length
        = (windowOf env bs ev).length := by
  intro env bs ev
  refine ⟨rfl, rfl, ?_⟩
  have h := filter_length_partition
    (fun kb => delete_vector_table env (extract_re_id kb)) (windowOf env bs ev)
  rw [← deletionLoop_success, ← deletionLoop_failed] at h
  exact h

/-- Claim C3, counterexample: for a candidate set of size 2 and batch size
1, the invocation at cursor 0 does not emit one continuation carrying the
new cursor 1 — it dispatches two payloads, with start indices 0 and 1,
re-dispatching the window it just processed. -/
theorem C3_dispatch_not_single_continuation :
    (find_outdated_kbs envStart 30).length = 2 ∧
    (handle_async_process envStart 1 ⟨0, 30, ['j']⟩).dispatched.map Payload.start_index
      = [0, 1] ∧
    ([0, 1] : List Nat) ≠ [1] :=
  ⟨rfl, rfl, by decide⟩

/-- Claim C3, amended: the processed window is
candidateSet[cursor : min(cursor+B, N)] and the new cursor is
cursor + len(window) = min(cursor+B, N); dispatching happens exactly when
the new cursor is short of N, but what is dispatched is one payload per
window of the whole candidate set, start indices 0, B, 2B, … (the cursor
argument to process_kb_batch_asynchronously is ignored). -/
theorem C3_window_cursor_dispatch :
    ∀ (env : Env) (bs : Nat) (ev : AsyncEvent),
      ev.start_index ≤ (find_outdated_kbs env ev.days_threshold).length →
      (ev.start_index + (windowOf env bs ev).length
          = min (ev.start_index + bs) (find_outdated_kbs env ev.days_threshold).length ∧
       ((handle_async_process env bs ev).dispatched = [] ↔
          (find_outdated_kbs env ev.days_threshold).length
            ≤ min (ev.start_index + bs) (find_outdated_kbs env ev.days_threshold).length) ∧
       (handle_async_process env bs ev).dispatched.map Payload.start_index
         = (if min (ev.start_index + bs) (find_outdated_kbs env ev.days_threshold).length
               < (find_outdated_kbs env ev.days_threshold).length
            then (List.range (find_outdated_kbs env ev.days_threshold).length).filter
                   (fun i => i % bs = 0)
            else [])) := by
  intro env bs ev h
  refine ⟨?_, ?_, ?_⟩
  · simp only [windowOf, pySlice, List.length_take, List.length_drop]
    omega
  · rw [handler_dispatched_eq]
    by_cases hlt : min (ev.start_index + bs) (find_outdated_kbs env ev.days_threshold).length
        < (find_outdated_kbs env ev.days_threshold).length
    · rw [if_pos hlt]
      refine iff_of_false ?_ (by omega)
      intro hemp
      have h0 : 0 ∈ (List.range (find_outdated_kbs env ev.days_threshold).length).filter
          (fun i => i % bs = 0) :=
        List.mem_filter.mpr ⟨List.mem_range.mpr (by omega), by simp⟩
      simp only [process_kb_batch_asynchronously] at hemp
      rw [List.map_eq_nil_iff.mp hemp] at h0
      exact List.not_mem_nil 0 h0
    · rw [if_neg hlt]
      simp only [true_iff]
      omega
  · rw [handler_dispatched_eq]
    by_cases hlt : min (ev.start_index + bs) (find_outdated_kbs env ev.days_threshold).length
        < (find_outdated_kbs env ev.days_threshold).length
    · rw [if_pos hlt, if_pos hlt]
      simp only [process_kb_batch_asynchronously, List.map_map]
      exact List.map_id' _
    · rw [if_neg hlt, if_neg hlt]
      rfl

/-- Claim C3, witness: the amended statement applied at the concrete start
environment, cursor 0, batch size 1. -/
theorem C3_window_cursor_dispatch_witness :
    (0 : Nat) ≤ (find_outdated_kbs envStart 30).length ∧
    (0 : Nat) + (windowOf envStart 1 ⟨0, 30, ['j']⟩).length
      = min (0 + 1) (find_outdated_kbs envStart 30).length :=
  ⟨Nat.zero_le _, (C3_window_cursor_dispatch envStart 1 ⟨0, 30, ['j']⟩ (Nat.zero_le _)).1⟩

/-- Claim C4, counterexample: at the boundary createdAt = now - T
(createdAt 70, now 100, T 30) the claim includes the resource
(createdAt ≤ now - T), but the code compares with strict less-than and
excludes it: the age check is false and discovery returns nothing. -/
theorem C4_boundary_equality_excluded :
    envBoundary.createdAt ['x'] = Except.ok (some 70) ∧
    envBoundary.now - 30 = 70 ∧
    is_kb_older_than_threshold envBoundary ['x'] 30 = false ∧
    find_outdated_kbs envBoundary 30 = [] :=
  ⟨rfl, by decide, rfl, rfl⟩

/-- Claim C4, amended: discovery includes a fetched resource exactly when
createdAt < now - T, so createdAt ≥ now - T (equality included) is
excluded; membership in the discovery result is membership in the fetched
rows filtered by that strict age check. -/
theorem C4_strict_threshold :
    ∀ (env : Env) (days : Int) (rows : List Name) (kb : Name) (created : Int),
      env.tableRows = Except.ok rows →
      ((kb ∈ find_outdated_kbs env days ↔
          kb ∈ rows ∧ is_kb_older_than_threshold env kb days = true) ∧
       (env.secrets.isSome = true → env.createdAt kb = Except.ok (some created) →
          (is_kb_older_than_threshold env kb days = true ↔ created < env.now - days))) := by
  intro env days rows kb created hrows
  constructor
  · cases hsec : env.secrets with
    | none => simp [find_outdated_kbs, get_secrets, hsec, is_kb_older_than_threshold]
    | some s0 =>
        cases rows with
        | nil => simp [find_outdated_kbs, get_secrets, hsec, hrows]
        | cons a tl => simp [find_outdated_kbs, get_secrets, hsec, hrows, List.mem_filter]
  · intro hs hc
    cases hsec : env.secrets with
    | none => rw [hsec] at hs; simp at hs
    | some s0 => simp [is_kb_older_than_threshold, get_secrets, hsec, hc]

/-- Claim C4, witness: the amended statement applied at an environment whose
single row is one day past the threshold. -/
theorem C4_strict_threshold_witness :
    (['x'] ∈ find_outdated_kbs envIncluded 30 ↔
      ['x'] ∈ ([['x']] : List Name) ∧
        is_kb_older_than_threshold envIncluded ['x'] 30 = true) ∧
    (is_kb_older_than_threshold envIncluded ['x'] 30 = true ↔
      (69 : Int) < envIncluded.now - 30) :=
  ⟨(C4_strict_threshold envIncluded 30 [['x']] ['x'] 69 rfl).1,
   (C4_strict_threshold envIncluded 30 [['x']] ['x'] 69 rfl).2 rfl rfl⟩

/-- Claim C5, code bug: with an underlying bedrock delete that raises
ClientError on every attempt, check_and_retry_kb_deletion still reports
success after exactly one attempt and sleeps no retry delay — delete_kb
catches the ClientError internally, so the retry loop's except branch is
unreachable, no retry ever happens, and nothing is ever marked Failed. -/
theorem C5_check_and_retry_swallows_failures :
    bedrock_delete_knowledge_base true = Except.error DbErr.err ∧
    check_and_retry_kb_deletion (fun _ => true) MAX_RETRIES = ⟨true, 1, 0⟩ :=
  ⟨rfl, rfl⟩

/-- Claim C6: the stored comment is write-once — a status update never
changes an existing comment, and setting a comment twice for the same id
retains the first value. -/
theorem C6_comment_write_once :
    ∀ (store : StatusStore) (id : Name) (s : String) (c : Option String) (cm : String),
      (get_cleanup_comment store id = some cm →
        get_cleanup_comment (update_cleanup_status store id s c) id = some cm) ∧
      (get_cleanup_comment store id = none →
        ∀ (s1 s2 c1 : String) (c2 : Option String),
          get_cleanup_comment
            (update_cleanup_status (update_cleanup_status store id s1 (some c1)) id s2 c2) id
            = some c1) := by
  intro store id s c cm
  constructor
  · intro h
    rw [comment_after_update, h]
  · intro h s1 s2 c1 c2
    rw [comment_after_update, comment_after_update, h]

/-- Claim C6, witness: two successive comment writes for one id on the empty
store retain the first comment. -/
theorem C6_comment_write_once_witness :
    get_cleanup_comment
      (update_cleanup_status (update_cleanup_status [] ['x'] "Failed" (some "first"))
        ['x'] "InProgress" (some "second")) ['x'] = some "first" :=
  (C6_comment_write_once [] ['x'] "s" none "c").2 rfl "Failed" "InProgress" "first"
    (some "second")

/-- Claim C7: one resource's failure never aborts the batch — the bulk
handler attempts deletion of every id of the window, and the success and
failed lists partition the window: their lengths sum to the window length
and each name lies in exactly the list matching its deletion outcome. -/
theorem C7_bulk_cleanup_partitions :
    ∀ (env : Env) (kb_batch : List Name),
      (handle_bulk_cleanup env kb_batch).2 = kb_batch.map extract_re_id ∧
      (handle_bulk_cleanup env kb_batch).1.success
        = kb_batch.filter (fun kb => delete_vector_table env (extract_re_id kb)) ∧
      (handle_bulk_cleanup env kb_batch).1.failed
        = kb_batch.filter (fun kb => !(delete_vector_table env (extract_re_id kb))) ∧
      (handle_bulk_cleanup env kb_batch).1.success.length
          + (handle_bulk_cleanup env kb_batch).1.failed.length = kb_batch.length ∧
      ∀ kb : Name,
        (kb ∈ (handle_bulk_cleanup env kb_batch).1.success ↔
          kb ∈ kb_batch ∧ delete_vector_table env (extract_re_id kb) = true) ∧
        (kb ∈ (handle_bulk_cleanup env kb_batch).1.failed ↔
          kb ∈ kb_batch ∧ delete_vector_table env (extract_re_id kb) = false) := by
  intro env kb_batch
  refine ⟨deletionLoop_attempts _ _, deletionLoop_success _ _, deletionLoop_failed _ _,
    ?_, ?_⟩
  · have h := filter_length_partition
      (fun kb => delete_vector_table env (extract_re_id kb)) kb_batch
    rw [← deletionLoop_success, ← deletionLoop_failed] at h
    exact h
  · intro kb
    constructor
    · simp only [handle_bulk_cleanup]
      rw [deletionLoop_success]
      simp [List.mem_filter]
    · simp only [handle_bulk_cleanup]
      rw [deletionLoop_failed]
      simp [List.mem_filter]

/-- Claim C8: discovery is fail-closed — a credential failure or a raised
registry-table query error yields the empty candidate list, and the paginated
registry listing likewise degrades a client error to the empty list instead
of propagating it (all these functions are total, so no error reaches the
caller). -/
theorem C8_discovery_fail_closed :
    ∀ (env : Env) (days : Int) (e : DbErr) (pages : List (List Name)),
      (env.secrets = none → find_outdated_kbs env days = []) ∧
      (env.tableRows = Except.error e → find_outdated_kbs env days = []) ∧
      list_knowledge_bases (Except.error e) = [] ∧
      list_knowledge_bases (Except.ok pages) = pages.flatten := by
  intro env days e pages
  refine ⟨fun h => ?_, fun h => ?_, rfl, rfl⟩
  · simp [find_outdated_kbs, get_secrets, h]
  · cases hsec : env.secrets with
    | none => simp [find_outdated_kbs, get_secrets, hsec]
    | some s0 => simp [find_outdated_kbs, get_secrets, hsec, h]

/-- Claim C8, witness: the fail-closed statement applied at an environment
whose credential retrieval fails, and at an erroring registry listing. -/
theorem C8_discovery_fail_closed_witness :
    find_outdated_kbs envNoSecrets 30 = [] ∧
    list_knowledge_bases (Except.error DbErr.err) = [] :=
  ⟨(C8_discovery_fail_closed envNoSecrets 30 DbErr.err []).1 rfl,
   (C8_discovery_fail_closed envNoSecrets 30 DbErr.err []).2.2.1⟩

/-- Claim C9, code bug: against an environment where discovery finds zero
candidates, a new-job trigger (an event without kb_batch) produces no
response at all — the entry point has no new-job branch and never invokes
the no-op response helper, although that helper does build exactly the
response the claim describes. -/
theorem C9_lambda_handler_missing_newjob_response :
    find_outdated_kbs envZero DEFAULT_DAYS_THRESHOLD = [] ∧
    (lambda_handler envZero {}).response = none ∧
    no_kbs_to_cleanup_response = ⟨200, "No knowledge bases to cleanup"⟩ ∧
    (lambda_handler envZero {}).response ≠ some no_kbs_to_cleanup_response :=
  ⟨rfl, rfl, rfl, fun h => Option.noConfusion h⟩

/-- Claim C10: extract_re_id strips a leading kb_ marker and returns any
other name unchanged; it is a total function on names, never an error. -/
theorem C10_extract_re_id_total :
    (∀ t : Name, extract_re_id (kbPre ++ t) = t) ∧
    (∀ s : Name, kbPre.isPrefixOf s = false → extract_re_id s = s) := by
  constructor
  · intro t
    have hp : kbPre.isPrefixOf (kbPre ++ t) = true :=
      List.isPrefixOf_iff_prefix.mpr (List.prefix_append _ _)
    rw [extract_re_id, if_pos hp]
    rfl
  · intro s hs
    simp [extract_re_id, hs]

/-- Claim C10, witness: the statement applied to the prefixed name kb_x and
to the unprefixed name a. -/
theorem C10_extract_re_id_total_witness :
    extract_re_id (kbPre ++ ['x']) = ['x'] ∧ extract_re_id ['a'] = ['a'] :=
  ⟨C10_extract_re_id_total.1 ['x'], C10_extract_re_id_total.2 ['a'] rfl⟩

end CleanupStatusChecker
